import Mathlib

/-!
Formal model of the grok-bud client: the local storage layer (`storage.ts`),
the cloud-sync engine (`cloudStorage.ts`) and the background video-job
manager (`videoJobManager.ts`).

The embedding is shallow and sequential: `localStorage` is modelled as an
in-memory `PartialAppState` record whose `Option` fields mirror the
`Partial<AppState>` blob, effects such as `crypto.randomUUID()` and
`Date.now()` are passed in as explicit arguments, network outcomes are
explicit oracle arguments, and JavaScript `Map`s are association lists that
preserve insertion order.  Monetary amounts are rationals.  JavaScript
falsiness of strings (`"" || x`) and numbers (`0 || x`) is modelled
explicitly where the source relies on it.
-/

namespace GrokBud

/-- Post kind: `'image' | 'chat'`. -/
inductive PostType where
  | image
  | chat
deriving DecidableEq, Repr

/-- Chat message role. -/
inductive Role where
  | system
  | user
  | assistant
deriving DecidableEq, Repr

/-- One chat turn (`GrokMessage`). -/
structure GrokMessage where
  role : Role
  content : String
deriving DecidableEq, Repr

/-- One generated video attached to a post (`PostVideo`). -/
structure PostVideo where
  id : String
  url : String
  prompt : String
  duration : Nat
  createdAt : Nat
  starred : Bool
deriving DecidableEq, Repr

/-- A saved gallery item (`FavoritePost`).  Optional fields of the source
interface are `Option`s; `videos` absent in the source is modelled as `[]`. -/
structure FavoritePost where
  id : String
  ptype : PostType
  title : Option String
  prompt : String
  response : Option String
  messages : Option (List GrokMessage)
  imageUrl : Option String
  model : String
  createdAt : Nat
  updatedAt : Option Nat
  tags : List String
  videos : List PostVideo
deriving DecidableEq, Repr

/-- Video-job status: `'pending' | 'done' | 'error'`. -/
inductive JobStatus where
  | pending
  | done
  | error
deriving DecidableEq, Repr

/-- A tracked video-generation request (`VideoJob`). -/
structure VideoJob where
  id : String
  postId : String
  prompt : String
  duration : Nat
  status : JobStatus
  videoUrl : Option String
  errorMessage : Option String
  startedAt : Nat
  completedAt : Option Nat
deriving DecidableEq, Repr

/-- Usage endpoint tag: `'chat' | 'image'`. -/
inductive Endpoint where
  | chat
  | image
deriving DecidableEq, Repr

/-- One usage history entry (`UsageRecord`); cost in USD as a rational. -/
structure UsageRecord where
  timestamp : Nat
  endpoint : Endpoint
  model : String
  promptTokens : Nat
  completionTokens : Nat
  totalTokens : Nat
  estimatedCost : ℚ
  imageCount : Option Nat
deriving DecidableEq, Repr

/-- Running usage counters (`UsageStats`). -/
structure UsageStats where
  totalTokens : Nat
  totalCost : ℚ
  chatTokens : Nat
  imageCount : Nat
  requestCount : Nat
  history : List UsageRecord
deriving DecidableEq, Repr

/-- The persisted blob `Partial<AppState>`: every field may be absent.
Fields whose own type is nullable in the source are `Option (Option _)`:
the outer layer is key presence in the blob, the inner one is `null`. -/
structure PartialAppState where
  favorites : Option (List FavoritePost) := none
  apiKey : Option (Option String) := none
  selectedModel : Option String := none
  imageCount : Option Nat := none
  galleryColumns : Option Nat := none
  sidebarCollapsed : Option Bool := none
  usage : Option UsageStats := none
  currentChatId : Option (Option String) := none
  currentPostId : Option (Option String) := none
  videoJobs : Option (List VideoJob) := none
deriving DecidableEq, Repr

/-- The empty blob `{}` returned by `loadState` on a missing or bad cell. -/
def emptyPartial : PartialAppState := {}

/-- Present-field-wins merge of a partial update into the current blob:
`{ ...current, ...update }` in `saveState`. -/
def mergeState (cur upd : PartialAppState) : PartialAppState where
  favorites := upd.favorites.elim cur.favorites some
  apiKey := upd.apiKey.elim cur.apiKey some
  selectedModel := upd.selectedModel.elim cur.selectedModel some
  imageCount := upd.imageCount.elim cur.imageCount some
  galleryColumns := upd.galleryColumns.elim cur.galleryColumns some
  sidebarCollapsed := upd.sidebarCollapsed.elim cur.sidebarCollapsed some
  usage := upd.usage.elim cur.usage some
  currentChatId := upd.currentChatId.elim cur.currentChatId some
  currentPostId := upd.currentPostId.elim cur.currentPostId some
  videoJobs := upd.videoJobs.elim cur.videoJobs some

/-- `saveState`: read-merge-write of the whole blob.  In the in-memory model
the read is the current state itself. -/
def saveState (s upd : PartialAppState) : PartialAppState := mergeState s upd

/-- `getFavorites`: `state.favorites || []`. -/
def getFavorites (s : PartialAppState) : List FavoritePost := s.favorites.getD []

/-- The argument of `addFavorite`: `Omit<FavoritePost, 'id' | 'createdAt'>`. -/
structure NewFavorite where
  ptype : PostType
  title : Option String := none
  prompt : String
  response : Option String := none
  messages : Option (List GrokMessage) := none
  imageUrl : Option String := none
  model : String
  updatedAt : Option Nat := none
  tags : List String := []
  videos : List PostVideo := []
deriving DecidableEq, Repr

/-- Spreading a full `FavoritePost` where an `Omit` is expected keeps every
field except `id` and `createdAt`, which the callee overrides. -/
def FavoritePost.toNew (p : FavoritePost) : NewFavorite where
  ptype := p.ptype
  title := p.title
  prompt := p.prompt
  response := p.response
  messages := p.messages
  imageUrl := p.imageUrl
  model := p.model
  updatedAt := p.updatedAt
  tags := p.tags
  videos := p.videos

/-- `{ ...post, id: crypto.randomUUID(), createdAt: Date.now() }`. -/
def NewFavorite.make (np : NewFavorite) (freshId : String) (now : Nat) : FavoritePost where
  id := freshId
  ptype := np.ptype
  title := np.title
  prompt := np.prompt
  response := np.response
  messages := np.messages
  imageUrl := np.imageUrl
  model := np.model
  createdAt := now
  updatedAt := np.updatedAt
  tags := np.tags
  videos := np.videos

/-- `addFavorite`: build the new post, `unshift` it, save. -/
def addFavorite (s : PartialAppState) (freshId : String) (now : Nat)
    (np : NewFavorite) : PartialAppState × FavoritePost :=
  let newPost := np.make freshId now
  (saveState s { favorites := some (newPost :: getFavorites s) }, newPost)

/-- `removeFavorite`: filter the post with the given id out and save. -/
def removeFavorite (s : PartialAppState) (id : String) : PartialAppState :=
  saveState s { favorites := some ((getFavorites s).filter (fun f => f.id != id)) }

/-- `Partial<FavoritePost>`: an update object for `updateFavorite`. -/
structure FavoriteUpdates where
  id : Option String := none
  ptype : Option PostType := none
  title : Option (Option String) := none
  prompt : Option String := none
  response : Option (Option String) := none
  messages : Option (Option (List GrokMessage)) := none
  imageUrl : Option (Option String) := none
  model : Option String := none
  createdAt : Option Nat := none
  updatedAt : Option (Option Nat) := none
  tags : Option (List String) := none
  videos : Option (List PostVideo) := none
deriving DecidableEq, Repr

/-- `{ ...f, ...updates }`. -/
def applyFavUpdates (f : FavoritePost) (u : FavoriteUpdates) : FavoritePost where
  id := u.id.getD f.id
  ptype := u.ptype.getD f.ptype
  title := u.title.getD f.title
  prompt := u.prompt.getD f.prompt
  response := u.response.getD f.response
  messages := u.messages.getD f.messages
  imageUrl := u.imageUrl.getD f.imageUrl
  model := u.model.getD f.model
  createdAt := u.createdAt.getD f.createdAt
  updatedAt := u.updatedAt.getD f.updatedAt
  tags := u.tags.getD f.tags
  videos := u.videos.getD f.videos

/-- `updateFavorite`: map the update over the matching id and save. -/
def updateFavorite (s : PartialAppState) (id : String) (u : FavoriteUpdates) :
    PartialAppState :=
  let favorites := (getFavorites s).map (fun f => if f.id == id then applyFavUpdates f u else f)
  saveState s { favorites := some favorites }

/-- `getApiKey`: `state.apiKey || null` — the empty string is falsy. -/
def getApiKey (s : PartialAppState) : Option String :=
  match s.apiKey with
  | some (some k) => if k = "" then none else some k
  | _ => none

/-- `setApiKey`. -/
def setApiKey (s : PartialAppState) (apiKey : Option String) : PartialAppState :=
  saveState s { apiKey := some apiKey }

/-- `getSelectedModel`: `state.selectedModel || 'grok-3'`. -/
def getSelectedModel (s : PartialAppState) : String :=
  match s.selectedModel with
  | some m => if m = "" then "grok-3" else m
  | none => "grok-3"

/-- `setSelectedModel`. -/
def setSelectedModel (s : PartialAppState) (model : String) : PartialAppState :=
  saveState s { selectedModel := some model }

/-- The default `UsageStats` returned when none are stored. -/
def defaultUsageStats : UsageStats where
  totalTokens := 0
  totalCost := 0
  chatTokens := 0
  imageCount := 0
  requestCount := 0
  history := []

/-- `getUsageStats`: `state.usage || { ...zeroes }`. -/
def getUsageStats (s : PartialAppState) : UsageStats := s.usage.getD defaultUsageStats

/-- `CHAT_MODEL_PRICING` (USD cents per 100M tokens): prompt and completion. -/
def chatModelPricing (model : String) : Option (Nat × Nat) :=
  if model = "grok-4" then some (20000, 100000)
  else if model = "grok-3" then some (30000, 150000)
  else if model = "grok-3-mini" then some (3000, 5000)
  else none

/-- `calculateChatCost`: convert cents per 100M tokens to USD; unknown models
fall back to the `grok-3` row. -/
def calculateChatCost (model : String) (promptTokens completionTokens : Nat) : ℚ :=
  let pricing := (chatModelPricing model).getD (30000, 150000)
  let promptCost := (promptTokens : ℚ) / 100000000 * pricing.1 / 100
  let completionCost := (completionTokens : ℚ) / 100000000 * pricing.2 / 100
  promptCost + completionCost

/-- `recordChatUsage`: bump counters, prepend one history record, keep the
last 100 records, save. -/
def recordChatUsage (s : PartialAppState) (model : String)
    (promptTokens completionTokens totalTokens now : Nat) : PartialAppState :=
  let stats := getUsageStats s
  let estimatedCost := calculateChatCost model promptTokens completionTokens
  let record : UsageRecord :=
    { timestamp := now
      endpoint := Endpoint.chat
      model := model
      promptTokens := promptTokens
      completionTokens := completionTokens
      totalTokens := totalTokens
      estimatedCost := estimatedCost
      imageCount := none }
  let stats' : UsageStats :=
    { totalTokens := stats.totalTokens + totalTokens
      totalCost := stats.totalCost + estimatedCost
      requestCount := stats.requestCount + 1
      chatTokens := stats.chatTokens + totalTokens
      imageCount := stats.imageCount
      history := (record :: stats.history).take 100 }
  saveState s { usage := some stats' }

/-- `getVideoJobs`: `state.videoJobs || []`. -/
def getVideoJobs (s : PartialAppState) : List VideoJob := s.videoJobs.getD []

/-- `getVideoJobForPost`: first job whose `postId` matches. -/
def getVideoJobForPost (s : PartialAppState) (postId : String) : Option VideoJob :=
  (getVideoJobs s).find? (fun job => job.postId == postId)

/-- Boolean test used by the pending-jobs filter. -/
def VideoJob.isPending (job : VideoJob) : Bool :=
  match job.status with
  | JobStatus.pending => true
  | _ => false

/-- `getPendingVideoJobs`. -/
def getPendingVideoJobs (s : PartialAppState) : List VideoJob :=
  (getVideoJobs s).filter VideoJob.isPending

/-- `addVideoJob`: drop any job for the same post, `unshift` the new one,
keep only the first (most recent) 20. -/
def addVideoJob (s : PartialAppState) (job : VideoJob) : PartialAppState :=
  let jobs := getVideoJobs s
  let filtered := jobs.filter (fun j => j.postId != job.postId)
  saveState s { videoJobs := some ((job :: filtered).take 20) }

/-- `Partial<VideoJob>`: an update object for `updateVideoJob`. -/
structure VideoJobUpdates where
  id : Option String := none
  postId : Option String := none
  prompt : Option String := none
  duration : Option Nat := none
  status : Option JobStatus := none
  videoUrl : Option (Option String) := none
  errorMessage : Option (Option String) := none
  startedAt : Option Nat := none
  completedAt : Option (Option Nat) := none
deriving DecidableEq, Repr

/-- `{ ...job, ...updates }`. -/
def applyJobUpdates (j : VideoJob) (u : VideoJobUpdates) : VideoJob where
  id := u.id.getD j.id
  postId := u.postId.getD j.postId
  prompt := u.prompt.getD j.prompt
  duration := u.duration.getD j.duration
  status := u.status.getD j.status
  videoUrl := u.videoUrl.getD j.videoUrl
  errorMessage := u.errorMessage.getD j.errorMessage
  startedAt := u.startedAt.getD j.startedAt
  completedAt := u.completedAt.getD j.completedAt

/-- `updateVideoJob`. -/
def updateVideoJob (s : PartialAppState) (id : String) (u : VideoJobUpdates) :
    PartialAppState :=
  let jobs := (getVideoJobs s).map (fun job => if job.id == id then applyJobUpdates job u else job)
  saveState s { videoJobs := some jobs }

/-- `removeVideoJob`. -/
def removeVideoJob (s : PartialAppState) (id : String) : PartialAppState :=
  saveState s { videoJobs := some ((getVideoJobs s).filter (fun job => job.id != id)) }

/-- The result of `JSON.parse` on a stored string: the call may throw
(`failure`), may succeed with the JavaScript value `null` (`nullValue`), or
may succeed with any other value (`object`).  Property access on a non-null
primitive (number, string, boolean) yields `undefined`, so such a value
behaves exactly like a blob with every field absent and is represented by
`object` with all fields `none`; `null` is the one successful parse result
on which property access throws a `TypeError`. -/
inductive ParseResult where
  | failure
  | nullValue
  | object (blob : PartialAppState)
deriving DecidableEq, Repr

/-- The raw persistence read path: the storage cell under the fixed key is
either absent or a string, and `JSON.parse` is an arbitrary parser.
`loadState` catches a parse throw and returns `{}`, but a successful parse
is returned as-is — including the JavaScript `null` produced by the stored
string `"null"`, which is encoded here as the result `none`. -/
def loadState (parse : String → ParseResult) (cell : Option String) :
    Option PartialAppState :=
  match cell with
  | none => some emptyPartial
  | some stored =>
      if stored = "" then some emptyPartial
      else
        match parse stored with
        | ParseResult.failure => some emptyPartial
        | ParseResult.nullValue => none
        | ParseResult.object blob => some blob

/-- The message of the `TypeError` thrown by property access on `null`. -/
def nullReadError : String := "TypeError: cannot read properties of null"

/-- `getFavorites` over the raw read path: `state.favorites` throws when
`loadState` returned `null`; otherwise the in-memory accessor applies. -/
def getFavoritesRaw (parse : String → ParseResult) (cell : Option String) :
    Except String (List FavoritePost) :=
  match loadState parse cell with
  | none => Except.error nullReadError
  | some st => Except.ok (getFavorites st)

/-- `getVideoJobs` over the raw read path. -/
def getVideoJobsRaw (parse : String → ParseResult) (cell : Option String) :
    Except String (List VideoJob) :=
  match loadState parse cell with
  | none => Except.error nullReadError
  | some st => Except.ok (getVideoJobs st)

/-- `getUsageStats` over the raw read path. -/
def getUsageStatsRaw (parse : String → ParseResult) (cell : Option String) :
    Except String UsageStats :=
  match loadState parse cell with
  | none => Except.error nullReadError
  | some st => Except.ok (getUsageStats st)

/-- `getApiKey` over the raw read path. -/
def getApiKeyRaw (parse : String → ParseResult) (cell : Option String) :
    Except String (Option String) :=
  match loadState parse cell with
  | none => Except.error nullReadError
  | some st => Except.ok (getApiKey st)

/-- `JSON.parse` restricted to the behaviour needed by the counterexample:
the five-character stored string `"null"` genuinely parses to the
JavaScript value `null`; every other string is taken to throw. -/
def parseNullOnly : String → ParseResult :=
  fun stored => if stored = "null" then ParseResult.nullValue else ParseResult.failure

/-! ## Cloud storage (`cloudStorage.ts`)

The remote store is a list of `posts` rows and a list of per-user `settings`
rows.  Network failures of a single remote call are modelled by an explicit
`ok` flag: a failed call leaves the remote unchanged and is logged, never
thrown (`if (error) console.error(...)`). -/

/-- JavaScript `x || null` / `x || undefined` on a nullable string: the empty
string is falsy and collapses to `none`. -/
def strOrNone (x : Option String) : Option String :=
  match x with
  | some s => if s = "" then none else some s
  | none => none

/-- A row of the `posts` table. -/
structure PostRow where
  id : String
  userId : String
  ptype : PostType
  prompt : String
  model : String
  imageUrl : Option String
  response : Option String
  videos : List PostVideo
  createdAt : Nat
deriving DecidableEq, Repr

/-- A row of the `settings` table. -/
structure SettingsRow where
  userId : String
  apiKeyEncrypted : Option String
  imageModel : Option String
deriving DecidableEq, Repr

/-- The remote store. -/
structure CloudState where
  posts : List PostRow := []
  settings : List SettingsRow := []
deriving DecidableEq, Repr

/-- The row written by `addFavoriteToCloud` for a local post. -/
def postToRow (userId : String) (p : FavoritePost) : PostRow where
  id := p.id
  userId := userId
  ptype := p.ptype
  prompt := p.prompt
  model := p.model
  imageUrl := strOrNone p.imageUrl
  response := strOrNone p.response
  videos := p.videos
  createdAt := p.createdAt

/-- The mapping applied to fetched rows in `fetchFavoritesFromCloud`:
`title`, `messages` and `updatedAt` are not selected, `tags` is reset. -/
def rowToPost (r : PostRow) : FavoritePost where
  id := r.id
  ptype := r.ptype
  title := none
  prompt := r.prompt
  response := strOrNone r.response
  messages := none
  imageUrl := strOrNone r.imageUrl
  model := r.model
  createdAt := r.createdAt
  updatedAt := none
  tags := []
  videos := r.videos

/-- Insert an element into a list sorted descending by `key`, before the
first element whose key is not larger (stable when folded from the right). -/
def insertByKeyDesc {α : Type} (key : α → Nat) (a : α) : List α → List α
  | [] => [a]
  | b :: bs => if key a < key b then b :: insertByKeyDesc key a bs else a :: b :: bs

/-- Stable sort, descending by `key`: models both the database
`order('created_at', { ascending: false })` and the JavaScript
`sort((a, b) => b.createdAt - a.createdAt)`. -/
def sortByKeyDesc {α : Type} (key : α → Nat) (l : List α) : List α :=
  l.foldr (insertByKeyDesc key) []

/-- A `supabase.from('posts').insert` keyed by primary id: a duplicate id is
a key-conflict error, which the caller logs and swallows. -/
def cloudInsertPost (c : CloudState) (row : PostRow) : CloudState :=
  if c.posts.any (fun r => r.id == row.id) then c
  else { c with posts := c.posts ++ [row] }

/-- `delete().eq('id', id).eq('user_id', userId)`. -/
def cloudDeletePost (c : CloudState) (userId id : String) : CloudState :=
  { c with posts := c.posts.filter (fun r => !(r.id == id && r.userId == userId)) }

/-- The column updates built by `updateFavoriteInCloud` from the defined
fields of a `Partial<FavoritePost>`, applied to one row. -/
def applyRowUpdates (u : FavoriteUpdates) (r : PostRow) : PostRow where
  id := r.id
  userId := r.userId
  ptype := r.ptype
  prompt := u.prompt.getD r.prompt
  model := u.model.getD r.model
  imageUrl := u.imageUrl.getD r.imageUrl
  response := u.response.getD r.response
  videos := u.videos.getD r.videos
  createdAt := r.createdAt

/-- `update(cloudUpdates).eq('id', id).eq('user_id', userId)`. -/
def cloudUpdatePost (c : CloudState) (userId id : String) (u : FavoriteUpdates) :
    CloudState :=
  { c with posts :=
      c.posts.map (fun r => if r.id == id && r.userId == userId then applyRowUpdates u r else r) }

/-- `fetchFavoritesFromCloud` for an authenticated user with a reachable
remote: the user's rows, newest first, mapped back to posts. -/
def fetchFavoritesFromCloud (userId : String) (c : CloudState) : List FavoritePost :=
  (sortByKeyDesc PostRow.createdAt (c.posts.filter (fun r => r.userId == userId))).map rowToPost

/-- `addFavoriteToCloud`: always writes locally first; mirrors to the remote
only when a session exists and the insert call succeeds (`ok`). -/
def addFavoriteToCloud (session : Option String) (ok : Bool) (freshId : String)
    (now : Nat) (np : NewFavorite) (s : PartialAppState) (c : CloudState) :
    PartialAppState × CloudState × FavoritePost :=
  let (s', localPost) := addFavorite s freshId now np
  match session with
  | none => (s', c, localPost)
  | some userId =>
      (s', if ok then cloudInsertPost c (postToRow userId localPost) else c, localPost)

/-- `removeFavoriteFromCloud`: always removes locally first. -/
def removeFavoriteFromCloud (session : Option String) (ok : Bool) (id : String)
    (s : PartialAppState) (c : CloudState) : PartialAppState × CloudState :=
  let s' := removeFavorite s id
  match session with
  | none => (s', c)
  | some userId => (s', if ok then cloudDeletePost c userId id else c)

/-- `updateFavoriteInCloud`: always updates locally first. -/
def updateFavoriteInCloud (session : Option String) (ok : Bool) (id : String)
    (u : FavoriteUpdates) (s : PartialAppState) (c : CloudState) :
    PartialAppState × CloudState :=
  let s' := updateFavorite s id u
  match session with
  | none => (s', c)
  | some userId => (s', if ok then cloudUpdatePost c userId id u else c)

/-- `fetchSettingsFromCloud`: apply the user's remote settings row to local
state; a missing row or error returns unchanged, and each field is applied
only when truthy. -/
def fetchSettingsFromCloud (userId : String) (c : CloudState)
    (s : PartialAppState) : PartialAppState :=
  match c.settings.find? (fun r => r.userId == userId) with
  | none => s
  | some row =>
      let s1 :=
        match row.apiKeyEncrypted with
        | some k => if k = "" then s else setApiKey s (some k)
        | none => s
      match row.imageModel with
      | some m => if m = "" then s1 else setSelectedModel s1 m
      | none => s1

/-- `Map.set` on a JavaScript `Map<string, FavoritePost>` keyed by `post.id`,
represented as an insertion-ordered list. -/
def mapSet (l : List FavoritePost) (p : FavoritePost) : List FavoritePost :=
  if l.any (fun q => q.id == p.id) then l.map (fun q => if q.id == p.id then p else q)
  else l ++ [p]

/-- `performFullSync` for a reachable remote.  Cloud posts are put in the
merge map first; each local post whose id is not yet present is added to the
map and uploaded through `addFavoriteToCloud` (which mints a fresh id and
`createdAt` for the copy it writes, locally and remotely); the map's values,
sorted newest first, are written back as the local favorites; finally the
remote settings are applied.  `idSupply k` is the `k`-th fresh UUID the run
draws. -/
def performFullSync (session : Option String) (idSupply : Nat → String) (now : Nat)
    (s : PartialAppState) (c : CloudState) : PartialAppState × CloudState :=
  match session with
  | none => (s, c)
  | some userId =>
      let cloudPosts := fetchFavoritesFromCloud userId c
      let localPosts := getFavorites s
      let base := cloudPosts.foldl mapSet []
      let step := fun (acc : List FavoritePost × PartialAppState × CloudState × Nat)
          (post : FavoritePost) =>
        let (merged, s0, c0, k) := acc
        if merged.any (fun q => q.id == post.id) then acc
        else
          let (s1, c1, _) :=
            addFavoriteToCloud (some userId) true (idSupply k) now post.toNew s0 c0
          (merged ++ [post], s1, c1, k + 1)
      let result := localPosts.foldl step (base, s, c, 0)
      let mergedArray := sortByKeyDesc FavoritePost.createdAt result.1
      let s2 := saveState result.2.1 { favorites := some mergedArray }
      let s3 := fetchSettingsFromCloud userId result.2.2.1 s2
      (s3, result.2.2.1)

/-! ## Video job manager (`videoJobManager.ts`)

The manager's only mutable state is `attemptCounts : Map<string, number>`,
which stores the poll-attempt count under the key `job.id` and the poll-error
count under the key `job.id + '_errors'`.  Listener callbacks are identified
by numbers; a notification delivers the updated job to each registered
listener.  The outcome of the awaited status call is an explicit
`PollResult` argument. -/

/-- `addVideoToPost`.  Modelled from the spec: the function lives in
`storage.ts` but is absent from the available sources (only its callers in
`cloudStorage.ts` and `videoJobManager.ts` are).  Per the spec it attaches a
new `PostVideo` with a fresh id, `starred = false` and `createdAt = now` to
the owning post, and attaching to a post that no longer exists fails (the
caller logs the failure). -/
def addVideoToPost (s : PartialAppState) (postId : String)
    (url prompt : String) (duration : Nat) (freshId : String) (now : Nat) :
    Except String (PartialAppState × PostVideo) :=
  let favorites := getFavorites s
  if favorites.any (fun f => f.id == postId) then
    let video : PostVideo :=
      { id := freshId, url := url, prompt := prompt, duration := duration
        createdAt := now, starred := false }
    let favorites' := favorites.map
      (fun f => if f.id == postId then { f with videos := f.videos ++ [video] } else f)
    Except.ok (saveState s { favorites := some favorites' }, video)
  else Except.error "post not found"

/-- `maxAttempts = 120` (ten minutes at the 5-second interval). -/
def maxAttempts : Nat := 120

/-- `pollingIntervalMs = 5000`. -/
def pollingIntervalMs : Nat := 5000

/-- The `attemptCounts` map: insertion-ordered association list. -/
def mapGet (m : List (String × Nat)) (k : String) : Option Nat :=
  (m.find? (fun e => e.1 == k)).map (fun e => e.2)

/-- `Map.set`. -/
def mapPut (m : List (String × Nat)) (k : String) (v : Nat) : List (String × Nat) :=
  if m.any (fun e => e.1 == k) then m.map (fun e => if e.1 == k then (k, v) else e)
  else m ++ [(k, v)]

/-- `Map.delete`. -/
def mapDel (m : List (String × Nat)) (k : String) : List (String × Nat) :=
  m.filter (fun e => e.1 != k)

/-- The error-counter key `job.id + '_errors'`. -/
def errKey (id : String) : String := id ++ "_errors"

/-- The manager's state. -/
structure ManagerState where
  attemptCounts : List (String × Nat) := []
deriving DecidableEq, Repr

/-- `'pending' | 'done'` in a status response. -/
inductive VStatus where
  | pending
  | done
deriving DecidableEq, Repr

/-- The `video` part of a status response. -/
structure VideoInfo where
  url : String
  duration : Option Nat
deriving DecidableEq, Repr

/-- `VideoStatusResponse`. -/
structure VideoStatusResponse where
  status : Option VStatus
  video : Option VideoInfo
deriving DecidableEq, Repr

/-- The outcome of one awaited `getVideoStatus` call. -/
inductive PollResult where
  | success (st : VideoStatusResponse)
  | failure (msg : String)
deriving DecidableEq, Repr

/-- The result of one `pollJob` call: new manager state, new storage state,
and the notifications delivered (one pair per registered listener). -/
structure PollOut where
  mgr : ManagerState
  store : PartialAppState
  notifications : List (Nat × VideoJob)
deriving DecidableEq, Repr

/-- A full-override update object carrying every field of `j`: passing a
complete `VideoJob` where `Partial<VideoJob>` is expected. -/
def fullUpdate (j : VideoJob) : VideoJobUpdates where
  id := some j.id
  postId := some j.postId
  prompt := some j.prompt
  duration := some j.duration
  status := some j.status
  videoUrl := some j.videoUrl
  errorMessage := some j.errorMessage
  startedAt := some j.startedAt
  completedAt := some j.completedAt

/-- `notifyUpdate`: deliver the job to every registered listener. -/
def notifyUpdate (listeners : List Nat) (j : VideoJob) : List (Nat × VideoJob) :=
  listeners.map (fun l => (l, j))

/-- `pollJob`: one poll pass over a single job.  Mirrors the source branch
by branch: timeout check first (before the network call); on a successful
call the attempt counter is bumped, and a `done` status with a truthy video
URL attaches the video (failure to attach is caught and only logged) and
completes the job; on a failed call the error counter under
`job.id + '_errors'` is bumped and the third error completes the job as
`error`. -/
def pollJob (listeners : List Nat) (res : PollResult) (now : Nat)
    (freshVideoId : String) (mgr : ManagerState) (s : PartialAppState)
    (job : VideoJob) : PollOut :=
  let attempts := (mapGet mgr.attemptCounts job.id).getD 0
  if maxAttempts ≤ attempts then
    let updatedJob : VideoJob :=
      { job with status := JobStatus.error
                 errorMessage := some "Video generation timed out"
                 completedAt := some now }
    { mgr := { attemptCounts := mapDel mgr.attemptCounts job.id }
      store := updateVideoJob s job.id (fullUpdate updatedJob)
      notifications := notifyUpdate listeners updatedJob }
  else
    match res with
    | PollResult.success st =>
        let counts1 := mapPut mgr.attemptCounts job.id (attempts + 1)
        match st.status, st.video with
        | some VStatus.done, some v =>
            if v.url = "" then
              { mgr := { attemptCounts := counts1 }, store := s, notifications := [] }
            else
              let s1 :=
                match addVideoToPost s job.postId v.url job.prompt job.duration
                    freshVideoId now with
                | Except.ok (s', _) => s'
                | Except.error _ => s
              let updatedJob : VideoJob :=
                { job with status := JobStatus.done
                           videoUrl := some v.url
                           completedAt := some now }
              { mgr := { attemptCounts := mapDel counts1 job.id }
                store := updateVideoJob s1 job.id (fullUpdate updatedJob)
                notifications := notifyUpdate listeners updatedJob }
        | _, _ =>
            { mgr := { attemptCounts := counts1 }, store := s, notifications := [] }
    | PollResult.failure msg =>
        let errorCount := (mapGet mgr.attemptCounts (errKey job.id)).getD 0 + 1
        let counts1 := mapPut mgr.attemptCounts (errKey job.id) errorCount
        if 3 ≤ errorCount then
          let updatedJob : VideoJob :=
            { job with status := JobStatus.error
                       errorMessage := some msg
                       completedAt := some now }
          { mgr := { attemptCounts := mapDel (mapDel counts1 job.id) (errKey job.id) }
            store := updateVideoJob s job.id (fullUpdate updatedJob)
            notifications := notifyUpdate listeners updatedJob }
        else
          { mgr := { attemptCounts := counts1 }, store := s, notifications := [] }

/-- One tick of the polling loop for a store holding at most one pending
job: poll it with the given outcome.  (With several pending jobs the source
fires the polls concurrently; the claims here only need single-job stores.) -/
def pollTick (listeners : List Nat) (ev : PollResult × Nat × String)
    (acc : ManagerState × PartialAppState) : ManagerState × PartialAppState :=
  match getPendingVideoJobs acc.2 with
  | [] => acc
  | job :: _ =>
      let out := pollJob listeners ev.1 ev.2.1 ev.2.2 acc.1 acc.2 job
      (out.mgr, out.store)

/-- Run a sequence of poll ticks. -/
def runPollSeq (listeners : List Nat) (events : List (PollResult × Nat × String))
    (start : ManagerState × PartialAppState) : ManagerState × PartialAppState :=
  events.foldl (fun acc ev => pollTick listeners ev acc) start

/-- Does the outcome sequence contain three consecutive failed polls? -/
def isFailure : PollResult → Bool
  | PollResult.failure _ => true
  | _ => false

/-- Three consecutive failures somewhere in the sequence. -/
def hasThreeConsecFailures : List PollResult → Bool
  | a :: b :: c :: rest =>
      (isFailure a && isFailure b && isFailure c) || hasThreeConsecFailures (b :: c :: rest)
  | _ => false

/-- First job record with the given job id. -/
def getVideoJobById (s : PartialAppState) (id : String) : Option VideoJob :=
  (getVideoJobs s).find? (fun job => job.id == id)

/-! ## Concrete scenarios used by the counterexample theorems -/

/-- A single locally saved image post with id `"A"`. -/
def pA : FavoritePost where
  id := "A"
  ptype := PostType.image
  title := none
  prompt := "cat"
  response := none
  messages := none
  imageUrl := some "img"
  model := "grok-imagine-image"
  createdAt := 10
  updatedAt := none
  tags := []
  videos := []

/-- Local state holding only `pA`. -/
def localA : PartialAppState := { favorites := some [pA] }

/-- An empty remote store. -/
def cloudEmpty : CloudState := {}

/-- First full sync of an authenticated user: the run draws the fresh id
`"B"` at time 100. -/
def syncOnce : PartialAppState × CloudState :=
  performFullSync (some "u") (fun _ => "B") 100 localA cloudEmpty

/-- Second full sync immediately after the first, with no intervening local
or remote writes: the run draws the fresh id `"C"` at time 200. -/
def syncTwice : PartialAppState × CloudState :=
  performFullSync (some "u") (fun _ => "C") 200 syncOnce.1 syncOnce.2

/-- A pending video job for post `"A"`. -/
def jA : VideoJob where
  id := "job1"
  postId := "A"
  prompt := "wiggle"
  duration := 6
  status := JobStatus.pending
  videoUrl := none
  errorMessage := none
  startedAt := 0
  completedAt := none

/-- Local state holding post `pA` and its pending job `jA`. -/
def stateAJ : PartialAppState := { favorites := some [pA], videoJobs := some [jA] }

/-- Deleting post `"A"` through the cloud wrapper. -/
def afterDeleteA : PartialAppState × CloudState :=
  removeFavoriteFromCloud (some "u") true "A" stateAJ cloudEmpty

/-- A status response reporting the job still pending. -/
def pendingResp : VideoStatusResponse := { status := some VStatus.pending, video := none }

/-- Four poll outcomes for `jA`: fail, succeed-still-pending, fail, fail —
at no point three consecutive failures. -/
def c3PollEvents : List (PollResult × Nat × String) :=
  [ (PollResult.failure "e1", 1, "v1")
  , (PollResult.success pendingResp, 2, "v2")
  , (PollResult.failure "e2", 3, "v3")
  , (PollResult.failure "e3", 4, "v4") ]

/-- Running the four polls against a store holding only `jA`. -/
def c3Final : ManagerState × PartialAppState :=
  runPollSeq [] c3PollEvents ({}, { videoJobs := some [jA] })

/-! ## Helper lemmas -/

/-- A full-override update replaces the whole record. -/
theorem applyJobUpdates_fullUpdate (j u : VideoJob) :
    applyJobUpdates j (fullUpdate u) = u := rfl

/-- `updateVideoJob` does not touch the favorites field. -/
theorem getFavorites_updateVideoJob (s : PartialAppState) (id : String)
    (u : VideoJobUpdates) : getFavorites (updateVideoJob s id u) = getFavorites s := rfl

/-- `updateVideoJob` maps the update over the stored jobs. -/
theorem getVideoJobs_updateVideoJob (s : PartialAppState) (id : String)
    (u : VideoJobUpdates) :
    getVideoJobs (updateVideoJob s id u)
      = (getVideoJobs s).map (fun job => if job.id == id then applyJobUpdates job u else job) :=
  rfl

/-- Saving only a favorites list does not touch the stored jobs. -/
theorem getVideoJobs_saveFavorites (s : PartialAppState) (fs : List FavoritePost) :
    getVideoJobs (saveState s { favorites := some fs }) = getVideoJobs s := rfl

/-- Saving only a favorites list replaces the favorites. -/
theorem getFavorites_saveFavorites (s : PartialAppState) (fs : List FavoritePost) :
    getFavorites (saveState s { favorites := some fs }) = fs := rfl

/-- `find?` over a point-update map: when every element matching `p` is
replaced by the fixed `c` and `c` itself matches, the first match is
replaced. -/
theorem find?_map_ite_const {α : Type} (p : α → Bool) (c : α) (hc : p c = true)
    (l : List α) :
    (l.map (fun a => if p a then c else a)).find? p = (l.find? p).map (fun _ => c) := by
  induction l with
  | nil => rfl
  | cons x xs ih =>
      by_cases hx : p x = true
      · rw [List.map_cons, if_pos hx, List.find?_cons_of_pos _ hc,
          List.find?_cons_of_pos _ hx]
        rfl
      · rw [List.map_cons, if_neg hx, List.find?_cons_of_neg _ (by simpa using hx),
          List.find?_cons_of_neg _ (by simpa using hx), ih]

/-- `find?` over a point-update map: when the update preserves the
predicate, the first match is mapped. -/
theorem find?_map_update {α : Type} (p : α → Bool) (g : α → α)
    (hg : ∀ a, p (g a) = p a) (l : List α) :
    (l.map (fun a => if p a then g a else a)).find? p = (l.find? p).map g := by
  induction l with
  | nil => rfl
  | cons x xs ih =>
      by_cases hx : p x = true
      · rw [List.map_cons, if_pos hx, List.find?_cons_of_pos _ ((hg x).trans hx),
          List.find?_cons_of_pos _ hx]
        rfl
      · rw [List.map_cons, if_neg hx, List.find?_cons_of_neg _ (by simpa using hx),
          List.find?_cons_of_neg _ (by simpa using hx), ih]

/-- Tagging a duplicate-free list of listeners with a fixed job delivers to
each listener exactly once. -/
theorem count_pair_map_nodup (j : VideoJob) :
    ∀ L : List Nat, L.Nodup → ∀ l, l ∈ L →
      ((L.map (fun x => (x, j))).count (l, j)) = 1 := by
  intro L
  induction L with
  | nil => intro _ l hl; cases hl
  | cons a rest ih =>
      intro hnd l hl
      rw [List.map_cons]
      rcases List.mem_cons.mp hl with h | h
      · subst h
        rw [List.count_cons_self]
        have hnotin : l ∉ rest := (List.nodup_cons.mp hnd).1
        have hmem : (l, j) ∉ rest.map (fun x => (x, j)) := by
          intro hm
          obtain ⟨x, hx, heq⟩ := List.mem_map.mp hm
          have hx' : x = l := by simpa using congrArg Prod.fst heq
          exact hnotin (hx' ▸ hx)
        rw [List.count_eq_zero.mpr hmem]
      · have hna : l ≠ a := fun he => (List.nodup_cons.mp hnd).1 (he ▸ h)
        have hne : ((l, j) : Nat × VideoJob) ≠ (a, j) := by simp [hna]
        rw [List.count_cons_of_ne (by simpa using hne)]
        exact ih (List.nodup_cons.mp hnd).2 l h

/-! ## Claims -/

/-- C1.  The claim states that `performFullSync` is idempotent: running it
twice with no intervening writes yields a favorites list identical by id set
and field values to running it once.  This theorem refutes it on the code:
for the authenticated user `"u"`, a local store holding only the post `"A"`
and an empty remote, one sync leaves the local favorites with id set
`{A}`, but the second sync yields id set `{B, A}` — the upload step of the
first sync re-created the local-only post remotely under the fresh id `"B"`
(via `addFavoriteToCloud`, which mints a new id), and the second sync pulls
that copy back as a new local post. -/
theorem c1_fullSync_not_idempotent :
    (getFavorites syncOnce.1).map FavoritePost.id = ["A"]
    ∧ (getFavorites syncTwice.1).map FavoritePost.id = ["B", "A"] := by decide

/-- C2.  The claim states that deleting a post removes any `VideoJob` whose
`postId` references it, so that `getJobForPost` afterwards returns no job.
This theorem refutes it on the code: deleting post `"A"` through
`removeFavoriteFromCloud` (which calls the local `removeFavorite`) removes
the post from favorites but leaves its job record untouched, and
`getVideoJobForPost "A"` still returns the job.  No code path calls
`removeVideoJob` on post deletion; only the remote `video_jobs` rows are
cascaded, by the database schema. -/
theorem c2_delete_leaves_dangling_job :
    getFavorites afterDeleteA.1 = [] ∧ getVideoJobForPost afterDeleteA.1 "A" = some jA := by
  decide

/-- C3.  The claim states that a job transitions to `error` exactly when 3
consecutive poll errors occur, and that with fewer than 3 consecutive poll
errors no state change happens for the job.  This theorem refutes it on the
code: the outcome sequence fail / success-pending / fail / fail contains no
three consecutive failures (at most two), yet after it the job record is in
status `error` — the per-job error counter under `job.id + '_errors'` is
never reset by a successful poll, so the code counts cumulative, not
consecutive, errors. -/
theorem c3_nonconsecutive_errors_terminate_job :
    hasThreeConsecFailures (c3PollEvents.map (fun e => e.1)) = false
    ∧ getVideoJobById c3Final.2 "job1" =
        some { jA with status := JobStatus.error
                       errorMessage := some "e3"
                       completedAt := some 4 } := by decide

/-- C4.  The claim states that a post id present only locally is preserved
in the merged local list and also pushed to remote under its id.  The first
half holds, and this theorem shows it at the concrete input; the second half
is refuted: after a full sync of the local-only post `"A"` against an empty
remote, the remote store contains exactly one row, carrying the post's
content but the freshly minted id `"B"` and the sync time `100` as
`created_at` — no remote row has the post's own id `"A"`. -/
theorem c4_local_only_post_pushed_under_fresh_id :
    (getFavorites syncOnce.1).map FavoritePost.id = ["A"]
    ∧ syncOnce.2.posts.map (fun r => (r.id, r.prompt, r.createdAt)) = [("B", "cat", 100)]
    ∧ syncOnce.2.posts.all (fun r => r.id != "A") = true := by decide

/-- C9.  Usage accounting: recording a chat usage event with model
`"grok-3-mini"`, 1000 prompt tokens, 500 completion tokens and 1500 total
tokens adds 1500 to `totalTokens`, one to `requestCount`, prepends exactly
one history record, adds to `totalCost` the per-token rates (3000 cents per
100M prompt tokens, 5000 cents per 100M completion tokens) times the token
counts, and the history keeps at most the 100 most recent records, oldest
dropped first. -/
theorem c9_recordChatUsage_accounting (s : PartialAppState) (now : Nat) :
    (getUsageStats (recordChatUsage s "grok-3-mini" 1000 500 1500 now)).totalTokens
        = (getUsageStats s).totalTokens + 1500
    ∧ (getUsageStats (recordChatUsage s "grok-3-mini" 1000 500 1500 now)).requestCount
        = (getUsageStats s).requestCount + 1
    ∧ (getUsageStats (recordChatUsage s "grok-3-mini" 1000 500 1500 now)).totalCost
        = (getUsageStats s).totalCost
            + ((1000 * 3000 : ℚ) / 100000000 / 100 + (500 * 5000 : ℚ) / 100000000 / 100)
    ∧ (getUsageStats (recordChatUsage s "grok-3-mini" 1000 500 1500 now)).history
        = ({ timestamp := now
             endpoint := Endpoint.chat
             model := "grok-3-mini"
             promptTokens := 1000
             completionTokens := 500
             totalTokens := 1500
             estimatedCost := calculateChatCost "grok-3-mini" 1000 500
             imageCount := none } :: (getUsageStats s).history).take 100
    ∧ (getUsageStats (recordChatUsage s "grok-3-mini" 1000 500 1500 now)).history.length
        ≤ 100 := by
  refine ⟨?_, ?_, ?_, ?_, ?_⟩
  · simp [recordChatUsage, getUsageStats, saveState, mergeState]
  · simp [recordChatUsage, getUsageStats, saveState, mergeState]
  · have hp : chatModelPricing "grok-3-mini" = some (3000, 5000) := by decide
    simp [recordChatUsage, getUsageStats, saveState, mergeState, calculateChatCost, hp]
    norm_num
  · simp [recordChatUsage, getUsageStats, saveState, mergeState]
  · simp [recordChatUsage, getUsageStats, saveState, mergeState]

/-- C10 counterexample.  The claim asserts the read path is total for
every stored blob value: `loadState` returns an object and every read
accessor returns its default instead of raising.  The stored cell `"null"`
refutes it: `JSON.parse("null")` succeeds with the value `null`, which the
`try` block returns as-is, and the accessors' property access on it then
throws an uncaught `TypeError` instead of returning a default. -/
theorem c10_null_cell_breaks_read_path :
    loadState parseNullOnly (some "null") = none
    ∧ getFavoritesRaw parseNullOnly (some "null") = Except.error nullReadError
    ∧ getVideoJobsRaw parseNullOnly (some "null") = Except.error nullReadError
    ∧ getUsageStatsRaw parseNullOnly (some "null") = Except.error nullReadError
    ∧ getApiKeyRaw parseNullOnly (some "null") = Except.error nullReadError := by
  refine ⟨by decide, by rfl, by rfl, by rfl, by rfl⟩

/-- C10, amended.  For every stored cell whose parse does not yield the
JavaScript value `null` — an absent key, the empty string, a string on
which the parser throws, or one parsing to any non-null value —
`loadState` returns an object, every read accessor succeeds, an absent
key or a parse failure yields the empty object, and on the empty object
every accessor returns its default. -/
theorem c10_read_path_total_unless_null (parse : String → ParseResult)
    (cell : Option String)
    (h : ∀ stored, cell = some stored → parse stored ≠ ParseResult.nullValue) :
    (∃ blob, loadState parse cell = some blob)
    ∧ (∃ favs, getFavoritesRaw parse cell = Except.ok favs)
    ∧ (∃ jobs, getVideoJobsRaw parse cell = Except.ok jobs)
    ∧ (∃ stats, getUsageStatsRaw parse cell = Except.ok stats)
    ∧ (∃ key, getApiKeyRaw parse cell = Except.ok key)
    ∧ (cell = none → loadState parse cell = some emptyPartial)
    ∧ (∀ stored, cell = some stored → parse stored = ParseResult.failure →
        loadState parse cell = some emptyPartial)
    ∧ (loadState parse cell = some emptyPartial →
        getFavoritesRaw parse cell = Except.ok []
        ∧ getVideoJobsRaw parse cell = Except.ok []
        ∧ getUsageStatsRaw parse cell = Except.ok defaultUsageStats
        ∧ getApiKeyRaw parse cell = Except.ok none) := by
  obtain ⟨blob, hblob⟩ : ∃ blob, loadState parse cell = some blob := by
    cases cell with
    | none => exact ⟨emptyPartial, rfl⟩
    | some stored =>
        by_cases hs : stored = ""
        · exact ⟨emptyPartial, by simp [loadState, hs]⟩
        · cases hp : parse stored with
          | failure => exact ⟨emptyPartial, by simp [loadState, hs, hp]⟩
          | nullValue => exact absurd hp (h stored rfl)
          | object b => exact ⟨b, by simp [loadState, hs, hp]⟩
  refine ⟨⟨blob, hblob⟩, ⟨getFavorites blob, ?_⟩, ⟨getVideoJobs blob, ?_⟩,
      ⟨getUsageStats blob, ?_⟩, ⟨getApiKey blob, ?_⟩, ?_, ?_, ?_⟩
  · rw [getFavoritesRaw, hblob]
  · rw [getVideoJobsRaw, hblob]
  · rw [getUsageStatsRaw, hblob]
  · rw [getApiKeyRaw, hblob]
  · intro hc
    subst hc
    rfl
  · intro stored hc hp
    subst hc
    by_cases hs : stored = ""
    · simp [loadState, hs]
    · simp [loadState, hs, hp]
  · intro hempty
    exact ⟨by rw [getFavoritesRaw, hempty]; rfl,
           by rw [getVideoJobsRaw, hempty]; rfl,
           by rw [getUsageStatsRaw, hempty]; rfl,
           by rw [getApiKeyRaw, hempty]; rfl⟩

/-- Witness for the amended C10: a cell holding a string on which every
parse throws, and an absent cell. -/
theorem c10_read_path_total_unless_null_witness :
    getFavoritesRaw (fun _ => ParseResult.failure) (some "not json") = Except.ok []
    ∧ loadState (fun _ => ParseResult.failure) none = some emptyPartial :=
  ⟨((c10_read_path_total_unless_null (fun _ => ParseResult.failure) (some "not json")
      (fun stored _ => by simp)).2.2.2.2.2.2.2 (by decide)).1,
   (c10_read_path_total_unless_null (fun _ => ParseResult.failure) none
      (fun stored hc => by simp at hc)).2.2.2.2.2.1 rfl⟩

/-- The job record written by the timeout branch of `pollJob`. -/
def timedOut (job : VideoJob) (now : Nat) : VideoJob :=
  { job with status := JobStatus.error
             errorMessage := some "Video generation timed out"
             completedAt := some now }

/-- C8.  A pending job whose attempt counter has reached `maxAttempts = 120`
is, on its next poll, transitioned to `error` with the timeout message and
`completedAt` set, and every listener is notified — regardless of the poll
outcome and of the poll-error count (the manager state `mgr` and the
outcome `res` are arbitrary); the favorites are untouched. -/
theorem c8_timeout_poll (listeners : List Nat) (res : PollResult) (now : Nat)
    (vid : String) (mgr : ManagerState) (s : PartialAppState) (job : VideoJob)
    (hpend : job.status = JobStatus.pending)
    (hatt : maxAttempts ≤ (mapGet mgr.attemptCounts job.id).getD 0) :
    getVideoJobById (pollJob listeners res now vid mgr s job).store job.id
        = (getVideoJobById s job.id).map (fun _ => timedOut job now)
    ∧ (pollJob listeners res now vid mgr s job).notifications
        = notifyUpdate listeners (timedOut job now)
    ∧ getFavorites (pollJob listeners res now vid mgr s job).store = getFavorites s := by
  have hout : pollJob listeners res now vid mgr s job =
      { mgr := { attemptCounts := mapDel mgr.attemptCounts job.id }
        store := updateVideoJob s job.id (fullUpdate (timedOut job now))
        notifications := notifyUpdate listeners (timedOut job now) } := by
    simp only [pollJob]
    rw [if_pos hatt]
    rfl
  refine ⟨?_, ?_, ?_⟩
  · rw [hout]
    show getVideoJobById (updateVideoJob s job.id (fullUpdate (timedOut job now))) job.id = _
    unfold getVideoJobById
    rw [getVideoJobs_updateVideoJob]
    simp only [applyJobUpdates_fullUpdate]
    exact find?_map_ite_const (fun k => k.id == job.id) (timedOut job now) (by simp [timedOut]) _
  · rw [hout]
  · rw [hout]
    exact getFavorites_updateVideoJob s job.id (fullUpdate (timedOut job now))

/-- Witness for C8: the pending job `jA` with its attempt counter at 120 is
timed out by the next poll even though its error counter is absent (zero). -/
theorem c8_timeout_poll_witness :
    getVideoJobById (pollJob [7] (PollResult.success pendingResp) 5 "v"
        { attemptCounts := [("job1", 120)] } stateAJ jA).store "job1"
      = some (timedOut jA 5) :=
  (c8_timeout_poll [7] (PollResult.success pendingResp) 5 "v"
      { attemptCounts := [("job1", 120)] } stateAJ jA rfl (by decide)).1.trans (by decide)

/-- The job record written by the completion branch of `pollJob`. -/
def doneJob (job : VideoJob) (url : String) (now : Nat) : VideoJob :=
  { job with status := JobStatus.done
             videoUrl := some url
             completedAt := some now }

/-- The `PostVideo` attached by the completion branch. -/
def attachedVideo (job : VideoJob) (vid url : String) (now : Nat) : PostVideo :=
  { id := vid, url := url, prompt := job.prompt, duration := job.duration
    createdAt := now, starred := false }

/-- C5.  A pending job, under its attempt limit, whose status poll returns
`done` with a (truthy) video URL: in that one poll pass the stored job
record flips to `done` with `videoUrl` and `completedAt` set; every
registered listener is notified exactly once with the updated job; when the
owning post is still in the favorites, exactly one `PostVideo` (fresh id,
`starred = false`, `createdAt = now`) is appended to it; when the owning
post no longer exists the attach failure is swallowed, the favorites are
left unchanged and the job still transitions to `done`. -/
theorem c5_done_poll_completes_job (listeners : List Nat) (now : Nat)
    (vid url : String) (dur : Option Nat) (mgr : ManagerState)
    (s : PartialAppState) (job : VideoJob)
    (hpend : job.status = JobStatus.pending)
    (hatt : (mapGet mgr.attemptCounts job.id).getD 0 < maxAttempts)
    (hurl : url ≠ "")
    (hnodup : listeners.Nodup) :
    getVideoJobById (pollJob listeners
          (PollResult.success { status := some VStatus.done, video := some { url := url, duration := dur } })
          now vid mgr s job).store job.id
        = (getVideoJobById s job.id).map (fun _ => doneJob job url now)
    ∧ (pollJob listeners
          (PollResult.success { status := some VStatus.done, video := some { url := url, duration := dur } })
          now vid mgr s job).notifications
        = notifyUpdate listeners (doneJob job url now)
    ∧ (∀ l ∈ listeners,
        ((pollJob listeners
            (PollResult.success { status := some VStatus.done, video := some { url := url, duration := dur } })
            now vid mgr s job).notifications).count (l, doneJob job url now) = 1)
    ∧ (∀ post, (getFavorites s).find? (fun f => f.id == job.postId) = some post →
        (getFavorites (pollJob listeners
            (PollResult.success { status := some VStatus.done, video := some { url := url, duration := dur } })
            now vid mgr s job).store).find? (fun f => f.id == job.postId)
          = some { post with videos := post.videos ++ [attachedVideo job vid url now] })
    ∧ ((getFavorites s).find? (fun f => f.id == job.postId) = none →
        getFavorites (pollJob listeners
            (PollResult.success { status := some VStatus.done, video := some { url := url, duration := dur } })
            now vid mgr s job).store = getFavorites s) := by
  have hnotle : ¬ maxAttempts ≤ (mapGet mgr.attemptCounts job.id).getD 0 :=
    Nat.not_le.mpr hatt
  have hout : pollJob listeners
        (PollResult.success { status := some VStatus.done, video := some { url := url, duration := dur } })
        now vid mgr s job =
      { mgr := { attemptCounts :=
            mapDel (mapPut mgr.attemptCounts job.id ((mapGet mgr.attemptCounts job.id).getD 0 + 1)) job.id }
        store := updateVideoJob
            (match addVideoToPost s job.postId url job.prompt job.duration vid now with
              | Except.ok (s', _) => s'
              | Except.error _ => s) job.id (fullUpdate (doneJob job url now))
        notifications := notifyUpdate listeners (doneJob job url now) } := by
    simp only [pollJob]
    rw [if_neg hnotle, if_neg hurl]
    rfl
  have key : (match addVideoToPost s job.postId url job.prompt job.duration vid now with
        | Except.ok (s', _) => s'
        | Except.error _ => s)
      = (if (getFavorites s).any (fun f => f.id == job.postId)
         then saveState s { favorites := some ((getFavorites s).map (fun f =>
                if f.id == job.postId
                then { f with videos := f.videos ++ [attachedVideo job vid url now] }
                else f)) }
         else s) := by
    by_cases hany : (getFavorites s).any (fun f => f.id == job.postId) = true
    · simp only [addVideoToPost, if_pos hany, attachedVideo]
    · simp only [addVideoToPost, if_neg hany]
  refine ⟨?_, ?_, ?_, ?_, ?_⟩
  · rw [hout]
    show getVideoJobById (updateVideoJob _ job.id (fullUpdate (doneJob job url now))) job.id = _
    rw [key]
    unfold getVideoJobById
    rw [getVideoJobs_updateVideoJob]
    have hjobs : getVideoJobs (if (getFavorites s).any (fun f => f.id == job.postId)
        then saveState s { favorites := some ((getFavorites s).map (fun f =>
              if f.id == job.postId
              then { f with videos := f.videos ++ [attachedVideo job vid url now] }
              else f)) }
        else s) = getVideoJobs s := by
      split
      · exact getVideoJobs_saveFavorites s _
      · rfl
    rw [hjobs]
    simp only [applyJobUpdates_fullUpdate]
    exact find?_map_ite_const (fun k => k.id == job.id) (doneJob job url now)
      (by simp [doneJob]) _
  · rw [hout]
  · intro l hl
    rw [hout]
    exact count_pair_map_nodup (doneJob job url now) listeners hnodup l hl
  · intro post hpost
    rw [hout]
    rw [show getFavorites (updateVideoJob
        (match addVideoToPost s job.postId url job.prompt job.duration vid now with
          | Except.ok (s', _) => s'
          | Except.error _ => s) job.id (fullUpdate (doneJob job url now)))
      = getFavorites (match addVideoToPost s job.postId url job.prompt job.duration vid now with
          | Except.ok (s', _) => s'
          | Except.error _ => s) from rfl]
    rw [key]
    have hmem := List.mem_of_find?_eq_some hpost
    have hp := List.find?_some hpost
    have hany : (getFavorites s).any (fun f => f.id == job.postId) = true :=
      List.any_eq_true.mpr ⟨post, hmem, hp⟩
    rw [if_pos hany, getFavorites_saveFavorites]
    have := find?_map_update (fun f => f.id == job.postId)
      (fun f => { f with videos := f.videos ++ [attachedVideo job vid url now] })
      (fun a => rfl) (getFavorites s)
    rw [this, hpost]
    rfl
  · intro hnone
    rw [hout]
    rw [show getFavorites (updateVideoJob
        (match addVideoToPost s job.postId url job.prompt job.duration vid now with
          | Except.ok (s', _) => s'
          | Except.error _ => s) job.id (fullUpdate (doneJob job url now)))
      = getFavorites (match addVideoToPost s job.postId url job.prompt job.duration vid now with
          | Except.ok (s', _) => s'
          | Except.error _ => s) from rfl]
    rw [key]
    have h1 := List.find?_eq_none.mp hnone
    have hany : ¬ (getFavorites s).any (fun f => f.id == job.postId) = true := by
      intro hA
      obtain ⟨x, hx, hpx⟩ := List.any_eq_true.mp hA
      exact h1 x hx hpx
    rw [if_neg hany]

/-- Witness for C5: polling the stored pending job `jA` with a `done`
response carrying the URL `"u1"` completes the stored record and appends
exactly one video to the owning post `pA`. -/
theorem c5_done_poll_completes_job_witness :
    getVideoJobById (pollJob [3]
        (PollResult.success { status := some VStatus.done, video := some { url := "u1", duration := none } })
        50 "v9" {} stateAJ jA).store "job1"
      = some (doneJob jA "u1" 50)
    ∧ (getFavorites (pollJob [3]
        (PollResult.success { status := some VStatus.done, video := some { url := "u1", duration := none } })
        50 "v9" {} stateAJ jA).store).find? (fun f => f.id == jA.postId)
      = some { pA with videos := pA.videos ++ [attachedVideo jA "v9" "u1" 50] } :=
  ⟨(c5_done_poll_completes_job [3] 50 "v9" "u1" none {} stateAJ jA rfl (by decide)
      (by decide) (by decide)).1.trans (by decide),
   (c5_done_poll_completes_job [3] 50 "v9" "u1" none {} stateAJ jA rfl (by decide)
      (by decide) (by decide)).2.2.2.1 pA (by decide)⟩

/-- A second pending video job, for post `"B"`. -/
def j2 : VideoJob where
  id := "job2"
  postId := "B"
  prompt := "spin"
  duration := 6
  status := JobStatus.pending
  videoUrl := none
  errorMessage := none
  startedAt := 1
  completedAt := none

/-- Local state holding the jobs `jA` (post `"A"`) and `j2` (post `"B"`). -/
def stateJJ : PartialAppState := { videoJobs := some [jA, j2] }

/-- C6 counterexample.  The claim asserts the at-most-one-job-per-`postId`
invariant is preserved by `updateVideoJob`; it is not for updates that
reassign `postId`: from a store with distinct post ids `"A"`, `"B"`
(satisfying the invariant and the 20-record cap), updating job `"job1"` with
`{ postId: "B" }` leaves two job records with `postId = "B"`. -/
theorem c6_update_can_break_postId_uniqueness :
    ((getVideoJobs stateJJ).map VideoJob.postId).Nodup
    ∧ (getVideoJobs stateJJ).length ≤ 20
    ∧ ¬ ((getVideoJobs (updateVideoJob stateJJ "job1"
          { postId := some "B" })).map VideoJob.postId).Nodup := by
  refine ⟨by decide, by decide, by decide⟩

/-- C6, amended.  After `addVideoJob`, exactly one stored job carries the
new job's `postId` (any prior job for that post is dropped, even a pending
one), at most 20 records are kept and they are the most recent ones (the
new job first, then the surviving old records in order, truncated at 20 so
the oldest fall off the end); the uniqueness invariant and the cap are
preserved by `addVideoJob` and `removeVideoJob` unconditionally, and by
`updateVideoJob` whenever the update does not reassign `postId` — which no
call site does. -/
theorem c6_job_store_invariant (s : PartialAppState) (j : VideoJob) (id : String)
    (u : VideoJobUpdates)
    (hnodup : ((getVideoJobs s).map VideoJob.postId).Nodup)
    (hlen : (getVideoJobs s).length ≤ 20)
    (hu : u.postId = none) :
    (getVideoJobs (addVideoJob s j)).filter (fun k => k.postId == j.postId) = [j]
    ∧ (getVideoJobs (addVideoJob s j)).length ≤ 20
    ∧ ((getVideoJobs (addVideoJob s j)).map VideoJob.postId).Nodup
    ∧ getVideoJobs (addVideoJob s j)
        = (j :: (getVideoJobs s).filter (fun k => k.postId != j.postId)).take 20
    ∧ ((getVideoJobs (removeVideoJob s id)).map VideoJob.postId).Nodup
    ∧ (getVideoJobs (removeVideoJob s id)).length ≤ 20
    ∧ ((getVideoJobs (updateVideoJob s id u)).map VideoJob.postId).Nodup
    ∧ (getVideoJobs (updateVideoJob s id u)).length ≤ 20 := by
  have hshape : getVideoJobs (addVideoJob s j)
      = (j :: (getVideoJobs s).filter (fun k => k.postId != j.postId)).take 20 := rfl
  have hfail : ∀ k ∈ (getVideoJobs s).filter (fun k => k.postId != j.postId),
      (k.postId == j.postId) = false := by
    intro k hk
    have hk2 := (List.mem_filter.mp hk).2
    simpa using hk2
  refine ⟨?_, ?_, ?_, hshape, ?_, ?_, ?_, ?_⟩
  · rw [hshape, show (20 : Nat) = 19 + 1 from rfl, List.take_succ_cons,
      List.filter_cons_of_pos (by simp)]
    have hempty : (((getVideoJobs s).filter (fun k => k.postId != j.postId)).take 19).filter
        (fun k => k.postId == j.postId) = [] := by
      refine List.filter_eq_nil_iff.mpr ?_
      intro a ha
      have hmem : a ∈ (getVideoJobs s).filter (fun k => k.postId != j.postId) :=
        List.take_subset _ _ ha
      simp [hfail a hmem]
    rw [hempty]
  · rw [hshape, List.length_take]
    exact Nat.min_le_left _ _
  · have hsub : List.Sublist ((getVideoJobs (addVideoJob s j)).map VideoJob.postId)
        ((j :: (getVideoJobs s).filter (fun k => k.postId != j.postId)).map VideoJob.postId) := by
      rw [hshape]
      exact (List.take_sublist _ _).map _
    have hwhole : ((j :: (getVideoJobs s).filter
        (fun k => k.postId != j.postId)).map VideoJob.postId).Nodup := by
      rw [List.map_cons]
      refine List.nodup_cons.mpr ⟨?_, ?_⟩
      · intro hm
        obtain ⟨k, hk, he⟩ := List.mem_map.mp hm
        have := hfail k hk
        rw [he] at this
        simp at this
      · exact hnodup.sublist ((List.filter_sublist _).map _)
    exact hwhole.sublist hsub
  · exact hnodup.sublist ((List.filter_sublist _).map _)
  · exact le_trans ((getVideoJobs s).length_filter_le _) hlen
  · have hpost : ∀ k ∈ getVideoJobs s,
        VideoJob.postId (if k.id == id then applyJobUpdates k u else k) = VideoJob.postId k := by
      intro k _
      by_cases hk : (k.id == id) = true
      · simp [hk, applyJobUpdates, hu]
      · simp [hk]
    have hmap : (getVideoJobs (updateVideoJob s id u)).map VideoJob.postId
        = (getVideoJobs s).map VideoJob.postId := by
      rw [getVideoJobs_updateVideoJob, List.map_map]
      exact List.map_congr_left hpost
    rw [hmap]
    exact hnodup
  · rw [getVideoJobs_updateVideoJob, List.length_map]
    exact hlen

/-- Witness for C6: adding the job `j2` to a store holding only `jA`
satisfies the amended invariant at a concrete input. -/
theorem c6_job_store_invariant_witness :
    (getVideoJobs (addVideoJob stateAJ j2)).filter (fun k => k.postId == j2.postId) = [j2] :=
  (c6_job_store_invariant stateAJ j2 "job1" {} (by decide) (by decide) rfl).1

/-- A favorites mutation: add, remove or update. -/
inductive FavOp where
  | add (np : NewFavorite)
  | remove (id : String)
  | update (id : String) (u : FavoriteUpdates)
deriving DecidableEq, Repr

/-- Per-operation environment: the auth session (if any), whether the
remote call succeeds, and the fresh id and timestamp the operation draws. -/
structure OpEnv where
  session : Option String
  remoteOk : Bool
  freshId : String
  now : Nat
deriving DecidableEq, Repr

/-- One favorites mutation through the cloud wrappers. -/
def cloudFavStep (env : OpEnv) (op : FavOp) (sc : PartialAppState × CloudState) :
    PartialAppState × CloudState :=
  match op with
  | FavOp.add np =>
      let r := addFavoriteToCloud env.session env.remoteOk env.freshId env.now np sc.1 sc.2
      (r.1, r.2.1)
  | FavOp.remove id => removeFavoriteFromCloud env.session env.remoteOk id sc.1 sc.2
  | FavOp.update id u => updateFavoriteInCloud env.session env.remoteOk id u sc.1 sc.2

/-- The same mutation through the pure local operations. -/
def localFavStep (env : OpEnv) (op : FavOp) (s : PartialAppState) : PartialAppState :=
  match op with
  | FavOp.add np => (addFavorite s env.freshId env.now np).1
  | FavOp.remove id => removeFavorite s id
  | FavOp.update id u => updateFavorite s id u

/-- Run a sequence of mutations through the cloud wrappers. -/
def runCloudFavOps (steps : List (OpEnv × FavOp)) (s : PartialAppState)
    (c : CloudState) : PartialAppState × CloudState :=
  steps.foldl (fun sc st => cloudFavStep st.1 st.2 sc) (s, c)

/-- Run the same sequence through the pure local operations. -/
def runLocalFavOps (steps : List (OpEnv × FavOp)) (s : PartialAppState) :
    PartialAppState :=
  steps.foldl (fun s0 st => localFavStep st.1 st.2 s0) s

/-- One cloud-wrapper step leaves the same local state as the pure local
step: the local mutation happens first and unconditionally, and the remote
mirror call never touches the local store. -/
theorem cloudFavStep_fst (env : OpEnv) (op : FavOp) (sc : PartialAppState × CloudState) :
    (cloudFavStep env op sc).1 = localFavStep env op sc.1 := by
  cases op with
  | add np =>
      cases henv : env.session with
      | none => simp [cloudFavStep, localFavStep, addFavoriteToCloud, henv]
      | some uid => simp [cloudFavStep, localFavStep, addFavoriteToCloud, henv]
  | remove id =>
      cases henv : env.session with
      | none => simp [cloudFavStep, localFavStep, removeFavoriteFromCloud, henv]
      | some uid => simp [cloudFavStep, localFavStep, removeFavoriteFromCloud, henv]
  | update id u =>
      cases henv : env.session with
      | none => simp [cloudFavStep, localFavStep, updateFavoriteInCloud, henv]
      | some uid => simp [cloudFavStep, localFavStep, updateFavoriteInCloud, henv]

/-- C7.  Local-first equivalence: for every sequence of add/remove/update
favorites mutations, every starting local and remote state, and every
per-operation environment — any session or none, every remote call
succeeding or failing — the local state after running the sequence through
the cloud wrappers equals the state after running the corresponding pure
local operations (with the same fresh ids and timestamps); in particular
the favorites lists agree. -/
theorem c7_cloud_wrappers_local_equivalence (steps : List (OpEnv × FavOp)) :
    ∀ (s : PartialAppState) (c : CloudState),
      (runCloudFavOps steps s c).1 = runLocalFavOps steps s
      ∧ getFavorites (runCloudFavOps steps s c).1 = getFavorites (runLocalFavOps steps s) := by
  induction steps with
  | nil => intro s c; exact ⟨rfl, rfl⟩
  | cons st rest ih =>
      intro s c
      have hs : (runCloudFavOps (st :: rest) s c)
          = runCloudFavOps rest (cloudFavStep st.1 st.2 (s, c)).1
              (cloudFavStep st.1 st.2 (s, c)).2 := rfl
      have hl : runLocalFavOps (st :: rest) s
          = runLocalFavOps rest (localFavStep st.1 st.2 s) := rfl
      have hmain : (runCloudFavOps (st :: rest) s c).1 = runLocalFavOps (st :: rest) s := by
        rw [hs, hl, ← cloudFavStep_fst st.1 st.2 (s, c)]
        exact (ih (cloudFavStep st.1 st.2 (s, c)).1 (cloudFavStep st.1 st.2 (s, c)).2).1
      exact ⟨hmain, by rw [hmain]⟩

end GrokBud
